import Mathlib

/-!
Shallow embedding of the Groupe Scout Ouragan frontend
(`src/frontend/src/App.js`).  Each definition is translated from the source
function named in its doc comment: React `useState` cells become fields of
explicit state records, event handlers become state-transition functions,
and the outcome of an awaited backend call is passed in as an explicit
argument (the call either resolves or rejects; axios treats a network
failure and a non-2xx response alike).
-/

namespace Ouragan

/-- Outcome of one awaited backend call: the promise resolves or rejects. -/
inductive CallResult where
  | success
  | failure
deriving Repr, DecidableEq

/-- A member record as the frontend consumes it: `id`, `nom`, `prenom`,
`age`, `branch` (the `branch` value is a plain string in the source). -/
structure Member where
  id : String
  nom : String
  prenom : String
  age : Nat
  branch : String
deriving Repr, DecidableEq

/-- An activity record: `id`, `titre`, `description`, `date_activite`,
optional `branch`, optional `organ`, optional `lieu`. -/
structure Activity where
  id : String
  titre : String
  description : String
  dateActivite : String
  branch : Option String
  organ : Option String
  lieu : Option String
deriving Repr, DecidableEq

/-- The root view selector of `App` (line 922): `public | login | admin`. -/
inductive View where
  | publicHome
  | loginForm
  | admin
deriving Repr, DecidableEq

/-- The combined mutable session state of the application: the durable
`localStorage` key `adminToken`, the `AuthProvider` React state (`token`
and `isAuthenticated`, lines 20-21), and the root `App` React state
(`view` and its own `isAuthenticated`, lines 922-923). -/
structure SystemState where
  storedToken : Option String
  authToken : Option String
  authIsAuthenticated : Bool
  appView : View
  appIsAuthenticated : Bool
deriving Repr, DecidableEq

/-- State on page load: `AuthProvider` reads the stored token (line 20) and
derives its flag from its presence (line 21); `App` derives its own flag
the same way (line 923) and starts on the public view (line 922). -/
def initState (stored : Option String) : SystemState :=
  { storedToken := stored
    authToken := stored
    authIsAuthenticated := stored.isSome
    appView := View.publicHome
    appIsAuthenticated := stored.isSome }

/-- `AuthProvider.login` (lines 23-27): persist the token, set the context
token and flag. -/
def contextLogin (s : SystemState) (newToken : String) : SystemState :=
  { s with
    storedToken := some newToken
    authToken := some newToken
    authIsAuthenticated := true }

/-- `AuthProvider.logout` (lines 29-33): remove the stored token, clear the
context token and flag.  It does not touch the root `App` state. -/
def contextLogout (s : SystemState) : SystemState :=
  { s with
    storedToken := none
    authToken := none
    authIsAuthenticated := false }

/-- `App.handleAdminClick` (lines 925-927). -/
def appHandleAdminClick (s : SystemState) : SystemState :=
  { s with appView := View.loginForm }

/-- `App.handleLogin` (lines 929-933): persist the token and update only
the root flag and view; it never calls `AuthProvider.login`, so the
context state is untouched. -/
def appHandleLogin (s : SystemState) (token : String) : SystemState :=
  { s with
    storedToken := some token
    appIsAuthenticated := true
    appView := View.admin }

/-- `App.handleLogout` (lines 935-939).  `App` passes it to
`AdminDashboard` as the `onLogout` prop (line 947), but `AdminDashboard`
declares no props and never calls it. -/
def appHandleLogout (s : SystemState) : SystemState :=
  { s with
    storedToken := none
    appIsAuthenticated := false
    appView := View.publicHome }

/-- The user interactions that drive login and logout, wired as in the
source: the header button calls `handleAdminClick` (lines 53, 925), a
successful login calls the `onLogin` prop, which `App` binds to
`handleLogin` (lines 945, 929), and the dashboard logout button calls the
`logout` obtained from `useAuth()` (lines 380, 477), not the ignored
`onLogout` prop. -/
inductive UiEvent where
  | adminClick
  | loginSuccess (token : String)
  | dashboardLogoutClick
deriving Repr, DecidableEq

/-- Effect of one interaction on the combined session state. -/
def uiStep (s : SystemState) : UiEvent → SystemState
  | .adminClick => appHandleAdminClick s
  | .loginSuccess token => appHandleLogin s token
  | .dashboardLogoutClick => contextLogout s

/-- Whether an interaction is available: each button exists only in the
view that renders it (`App`, lines 944-948). -/
def uiEnabled (s : SystemState) : UiEvent → Bool
  | .adminClick => s.appView == View.publicHome
  | .loginSuccess _ => s.appView == View.loginForm
  | .dashboardLogoutClick => (s.appView == View.admin) && s.appIsAuthenticated

/-- States reachable from some page load by available interactions. -/
inductive Reachable : SystemState → Prop where
  | init (stored : Option String) : Reachable (initState stored)
  | step {s : SystemState} (e : UiEvent) : Reachable s → uiEnabled s e = true →
      Reachable (uiStep s e)

/-- The session invariant asserted by the spec: the authenticated flags (in
`AuthProvider` and in `App`) are true exactly when a token is persisted,
and the context token mirrors the persisted one. -/
def sessionConsistent (s : SystemState) : Bool :=
  (s.authToken == s.storedToken) &&
  (s.authIsAuthenticated == s.storedToken.isSome) &&
  (s.appIsAuthenticated == s.storedToken.isSome)

/-- State after a fresh load with no stored token, a click on the admin
button, and a successful login issuing token `t`. -/
def afterLoginState : SystemState :=
  uiStep (uiStep (initState none) UiEvent.adminClick) (UiEvent.loginSuccess "t")

/-- State after then clicking the dashboard logout button. -/
def afterDashboardLogoutState : SystemState :=
  uiStep afterLoginState UiEvent.dashboardLogoutClick

/-- Claim C1: every login/logout path is claimed to keep the persisted
token and the authenticated flags of `AuthProvider` and `App` in step.
The code violates this on a reachable path: after a successful login the
token is stored but the `AuthProvider` flag is still false, and after the
dashboard logout the token is gone but the root `App` flag is still
true. -/
theorem c1_session_flags_diverge :
    Reachable afterDashboardLogoutState ∧
    sessionConsistent afterLoginState = false ∧
    afterLoginState.storedToken = some "t" ∧
    afterLoginState.authIsAuthenticated = false ∧
    sessionConsistent afterDashboardLogoutState = false ∧
    afterDashboardLogoutState.storedToken = none ∧
    afterDashboardLogoutState.appIsAuthenticated = true := by
  refine ⟨?_, by decide, by decide, by decide, by decide, by decide, by decide⟩
  exact Reachable.step UiEvent.dashboardLogoutClick
    (Reachable.step (UiEvent.loginSuccess "t")
      (Reachable.step UiEvent.adminClick (Reachable.init none) rfl) rfl) rfl

/-- Claim C3: triggering logout from the admin dashboard is claimed to
clear the stored token, set the authenticated flag false, and reset the
root view selector to the public view.  The dashboard button calls the
context `logout`, which does clear the token and the context flag, but the
root view selector stays on `admin` and the root flag stays true, because
the `onLogout` prop carrying `App.handleLogout` is never invoked. -/
theorem c3_dashboard_logout_keeps_admin_view :
    afterDashboardLogoutState.storedToken = none ∧
    afterDashboardLogoutState.authIsAuthenticated = false ∧
    afterDashboardLogoutState.appView = View.admin ∧
    afterDashboardLogoutState.appIsAuthenticated = true := by
  refine ⟨by decide, by decide, by decide, by decide⟩

/-- The root render condition for the dashboard (line 946): the element is
emitted exactly when `view === admin && isAuthenticated`. -/
def rendersAdminDashboard (s : SystemState) : Bool :=
  (s.appView == View.admin) && s.appIsAuthenticated

/-- Claim C10: in every reachable state of the root component the admin
dashboard is rendered only when the view selector is `admin` and the root
authenticated flag is true; it is never displayed while that flag is
false. -/
theorem c10_admin_dashboard_requires_auth (s : SystemState)
    (_hs : Reachable s) (h : rendersAdminDashboard s = true) :
    s.appView = View.admin ∧ s.appIsAuthenticated = true := by
  have h2 := h
  simp only [rendersAdminDashboard, Bool.and_eq_true, beq_iff_eq] at h2
  exact h2

/-- Witness for C10 at the reachable post-login state, where the dashboard
is rendered. -/
theorem c10_admin_dashboard_requires_auth_witness :
    afterLoginState.appView = View.admin ∧
    afterLoginState.appIsAuthenticated = true :=
  c10_admin_dashboard_requires_auth afterLoginState
    (Reachable.step (UiEvent.loginSuccess "t")
      (Reachable.step UiEvent.adminClick (Reachable.init none) rfl) rfl)
    (by decide)

/-- The `BranchCard` state cells the two buttons touch (lines 65-68),
extended with counters of the network requests the card has issued for its
member and activity lists. -/
structure BranchCardState where
  showMembers : Bool
  showActivities : Bool
  members : List Member
  branchActivities : List Activity
  memberFetches : Nat
  activityFetches : Nat
deriving Repr, DecidableEq

/-- Initial `BranchCard` state (lines 65-68). -/
def branchCardInit : BranchCardState :=
  { showMembers := false
    showActivities := false
    members := []
    branchActivities := []
    memberFetches := 0
    activityFetches := 0 }

/-- One click on the show-members button: its `onClick` is `loadMembers`
unconditionally (line 114), so every click issues a `GET`; on success the
response is stored and `showMembers` is set to true (lines 70-78); on
failure the error is only logged. -/
def clickShowMembers (s : BranchCardState) (response : Option (List Member)) :
    BranchCardState :=
  match response with
  | some data =>
      { s with
        memberFetches := s.memberFetches + 1
        members := data
        showMembers := true }
  | none => { s with memberFetches := s.memberFetches + 1 }

/-- One click on the show-activities button: its `onClick` is
`loadActivities` unconditionally (line 138); same shape (lines 80-88). -/
def clickShowActivities (s : BranchCardState)
    (response : Option (List Activity)) : BranchCardState :=
  match response with
  | some data =>
      { s with
        activityFetches := s.activityFetches + 1
        branchActivities := data
        showActivities := true }
  | none => { s with activityFetches := s.activityFetches + 1 }

/-- Claim C2: repeated clicks are claimed to alternate visibility and fetch
only on the first expand.  In the code every click runs the load function:
after two successful clicks on either button the list is still visible
(it never toggles hidden) and two fetches have been issued. -/
theorem c2_toggle_refetches :
    (clickShowMembers (clickShowMembers branchCardInit (some []))
        (some [])).memberFetches = 2 ∧
    (clickShowMembers (clickShowMembers branchCardInit (some []))
        (some [])).showMembers = true ∧
    (clickShowActivities (clickShowActivities branchCardInit (some []))
        (some [])).activityFetches = 2 ∧
    (clickShowActivities (clickShowActivities branchCardInit (some []))
        (some [])).showActivities = true := by
  refine ⟨rfl, rfl, rfl, rfl⟩

/-- The four branch keys (spec §3; also the select options,
lines 616-619). -/
def branchKeys : List String := ["meute", "troupe", "compagnie", "clan"]

/-- The `counts` object computed in `PublicHome.loadData`
(lines 190-195). -/
structure MemberCounts where
  meute : Nat
  troupe : Nat
  compagnie : Nat
  clan : Nat
deriving Repr, DecidableEq

/-- `PublicHome.loadData` lines 190-195: one filter-by-branch count per
key. -/
def computeCounts (members : List Member) : MemberCounts :=
  { meute := (members.filter (fun m => m.branch == "meute")).length
    troupe := (members.filter (fun m => m.branch == "troupe")).length
    compagnie := (members.filter (fun m => m.branch == "compagnie")).length
    clan := (members.filter (fun m => m.branch == "clan")).length }

/-- Property lookup `memberCounts[branch.type]` on the counts object. -/
def countsIndex (c : MemberCounts) : String → Option Nat
  | "meute" => some c.meute
  | "troupe" => some c.troupe
  | "compagnie" => some c.compagnie
  | "clan" => some c.clan
  | _ => none

/-- The value each card receives: `memberCounts[branch.type] || 0`
(line 233). -/
def displayedMemberCount (c : MemberCounts) (branchType : String) : Nat :=
  (countsIndex c branchType).getD 0

/-- Claim C5: for every fetched member list and every branch key among the
four, the displayed member count equals the number of fetched members
whose branch field equals that key. -/
theorem c5_member_counts (members : List Member) (key : String)
    (hk : key ∈ branchKeys) :
    displayedMemberCount (computeCounts members) key =
      (members.filter (fun m => m.branch == key)).length := by
  simp only [branchKeys, List.mem_cons, List.mem_singleton,
    List.not_mem_nil, or_false] at hk
  rcases hk with h | h | h | h <;> subst h <;> rfl

/-- Three concrete members: two in the meute branch, one in the troupe. -/
def demoMembers : List Member :=
  [ { id := "1", nom := "Dupont", prenom := "Jean", age := 10, branch := "meute" },
    { id := "2", nom := "Martin", prenom := "Ana", age := 14, branch := "troupe" },
    { id := "3", nom := "Durand", prenom := "Luc", age := 9, branch := "meute" } ]

/-- Witness for C5 at the concrete member list and the key meute. -/
theorem c5_member_counts_witness :
    displayedMemberCount (computeCounts demoMembers) "meute" =
      (demoMembers.filter (fun m => m.branch == "meute")).length :=
  c5_member_counts demoMembers "meute" (by decide)

/-- The `AdminLogin` state cells `handleLogin` manipulates
(lines 310-311). -/
structure LoginViewState where
  loading : Bool
  error : String
deriving Repr, DecidableEq

/-- The fixed localized message set on any rejected login (line 322). -/
def loginErrorMessage : String :=
  "Nom d\x27utilisateur ou mot de passe incorrect"

/-- Outcome of the `POST /auth/login` call: the issued access token, or a
rejection — wrong credentials and a network failure reach the same
`catch` (lines 321-323). -/
inductive LoginCallResult where
  | issued (accessToken : String)
  | rejected
deriving Repr, DecidableEq

/-- `AdminLogin.handleLogin` (lines 313-326): sets loading and clears the
error, awaits the call, passes the token to `onLogin` on success, sets the
fixed error message on rejection, and resets loading in `finally`.
Returns the view state afterwards and the token handed to `onLogin`, if
any. -/
def adminLoginHandleLogin (_s : LoginViewState) (r : LoginCallResult) :
    LoginViewState × Option String :=
  match r with
  | .issued t => ({ loading := false, error := "" }, some t)
  | .rejected => ({ loading := false, error := loginErrorMessage }, none)

/-- Effect of one login attempt on the root state: `onLogin` is
`App.handleLogin` (line 945) and fires only when the call resolves. -/
def loginAttempt (app : SystemState) (r : LoginCallResult) : SystemState :=
  match (adminLoginHandleLogin { loading := true, error := "" } r).2 with
  | some t => appHandleLogin app t
  | none => app

/-- Claim C7: every rejected login attempt — wrong credentials or network
failure alike — leaves the login view in its error state showing the one
fixed message, submittable again (loading off), with the root state and
hence the authenticated flag unchanged. -/
theorem c7_rejected_login (s : LoginViewState) (app : SystemState) :
    (adminLoginHandleLogin s LoginCallResult.rejected).1.error =
      loginErrorMessage ∧
    loginErrorMessage ≠ "" ∧
    (adminLoginHandleLogin s LoginCallResult.rejected).1.loading = false ∧
    (adminLoginHandleLogin s LoginCallResult.rejected).2 = none ∧
    loginAttempt app LoginCallResult.rejected = app := by
  refine ⟨rfl, by decide, rfl, rfl, rfl⟩

/-- What a delete handler did: whether the `DELETE` call was issued,
whether the `onUpdate` refresh callback ran, and whether an error was
logged.  Neither delete handler shows any alert. -/
structure DeleteOutcome where
  deleteIssued : Bool
  refreshInvoked : Bool
  logged : Bool
deriving Repr, DecidableEq

/-- `MembersManagement.handleDelete` (lines 559-570): a `window.confirm`
guard, then the `DELETE` call; `onUpdate` on success, a log on failure,
and nothing at all without confirmation. -/
def membersHandleDelete (confirmed : Bool) (r : CallResult) : DeleteOutcome :=
  if confirmed then
    match r with
    | .success => { deleteIssued := true, refreshInvoked := true, logged := false }
    | .failure => { deleteIssued := true, refreshInvoked := false, logged := true }
  else { deleteIssued := false, refreshInvoked := false, logged := false }

/-- `ActivitiesManagement.handleDelete` (lines 731-742): identical
shape. -/
def activitiesHandleDelete (confirmed : Bool) (r : CallResult) :
    DeleteOutcome :=
  if confirmed then
    match r with
    | .success => { deleteIssued := true, refreshInvoked := true, logged := false }
    | .failure => { deleteIssued := true, refreshInvoked := false, logged := true }
  else { deleteIssued := false, refreshInvoked := false, logged := false }

/-- The entity list after a delete interaction: the list lives in
`AdminDashboard` and changes only through `onUpdate` (lines 461-463),
which replaces it with a fresh fetch; otherwise the prop is untouched. -/
def listAfterDelete {α : Type} (current : List α) (outcome : DeleteOutcome)
    (refetched : List α) : List α :=
  if outcome.refreshInvoked then refetched else current

/-- Claim C8: without confirmation no delete call is issued and the entity
list (and all handler-touched state) is unchanged, whatever the backend
would have answered; with confirmation and a successful call the refresh
callback is invoked. -/
theorem c8_delete_confirmation :
    (∀ r : CallResult,
      membersHandleDelete false r =
        { deleteIssued := false, refreshInvoked := false, logged := false } ∧
      activitiesHandleDelete false r =
        { deleteIssued := false, refreshInvoked := false, logged := false }) ∧
    (∀ (current refetched : List Activity) (r : CallResult),
      listAfterDelete current (activitiesHandleDelete false r) refetched =
        current) ∧
    (∀ (current refetched : List Member) (r : CallResult),
      listAfterDelete current (membersHandleDelete false r) refetched =
        current) ∧
    (membersHandleDelete true CallResult.success).refreshInvoked = true ∧
    (activitiesHandleDelete true CallResult.success).refreshInvoked = true := by
  refine ⟨fun r => ⟨rfl, rfl⟩, fun c f r => rfl, fun c f r => rfl, rfl, rfl⟩

/-- `PublicHome.loadData` line 204: the recent list is
`activitiesResponse.data.slice(0, 5)`, with no sort applied. -/
def recentActivities (data : List Activity) : List Activity :=
  data.take 5

/-- Claim C9: the recent-activities section shows exactly the first 5
entries of the fetched list in fetch order — fewer if the list is shorter
— with each displayed entry equal to the backend entry at the same
index. -/
theorem c9_recent_first_five (data : List Activity) :
    (recentActivities data).length = min 5 data.length ∧
    ∀ (i : Nat) (hi : i < (recentActivities data).length),
      ∃ hj : i < data.length,
        (recentActivities data).get ⟨i, hi⟩ = data.get ⟨i, hj⟩ := by
  constructor
  · simp [recentActivities, List.length_take]
  · intro i hi
    have hlen : (recentActivities data).length ≤ data.length := by
      simp only [recentActivities, List.length_take]
      exact min_le_right 5 data.length
    refine ⟨lt_of_lt_of_le hi hlen, ?_⟩
    simp [recentActivities, List.get_take]

/-- Six concrete activities, in backend order. -/
def demoActivities : List Activity :=
  (List.range 6).map fun i =>
    { id := toString i
      titre := "Sortie " ++ toString i
      description := "description"
      dateActivite := "2024-01-0" ++ toString (i + 1)
      branch := none
      organ := none
      lieu := none }

/-- Witness for C9 at the six-element list: five entries shown, and the
first shown entry is the first fetched one. -/
theorem c9_recent_first_five_witness :
    (recentActivities demoActivities).length = min 5 demoActivities.length ∧
    ∃ hj : 0 < demoActivities.length,
      (recentActivities demoActivities).get ⟨0, by decide⟩ =
        demoActivities.get ⟨0, hj⟩ :=
  ⟨(c9_recent_first_five demoActivities).1,
   (c9_recent_first_five demoActivities).2 0 (by decide)⟩

/-- The pedagogical project record and, equally, the `ProjectManagement`
form state (line 856): `handleSubmit` sends `formData` unchanged as the
body of `PUT /admin/project` (line 867). -/
structure ProjectData where
  titre : String
  contenu : String
deriving Repr, DecidableEq

/-- Modelled from the spec: the backend (not under `src/`) stores the body
of `PUT /admin/project` as the singleton project (spec §6). -/
def backendPutProject (_stored : ProjectData) (body : ProjectData) :
    ProjectData :=
  body

/-- Modelled from the spec: `GET /project` returns the stored singleton
project (spec §6). -/
def backendGetProject (stored : ProjectData) : ProjectData := stored

/-- `contenu.split(c)` for a one-character separator, as JavaScript
`String.prototype.split` behaves: empty segments are kept, splitting the
empty string yields one empty segment. -/
def splitOnChar (sep : Char) : List Char → List (List Char)
  | [] => [[]]
  | c :: cs =>
      if c = sep then [] :: splitOnChar sep cs
      else
        match splitOnChar sep cs with
        | [] => [[c]]
        | seg :: rest => (c :: seg) :: rest

/-- The paragraphs the public view renders for a project:
`project.contenu.split(newline)` mapped to one paragraph element each, in
order (lines 288-292). -/
def projectParagraphs (project : ProjectData) : List String :=
  (splitOnChar (Char.ofNat 10) project.contenu.toList).map String.mk

/-- Newline-joined concatenation of segments, the shape of a content string
with one segment per paragraph. -/
def joinNl : List (List Char) → List Char
  | [] => []
  | [seg] => seg
  | seg :: rest => seg ++ Char.ofNat 10 :: joinNl rest

theorem splitOnChar_ne_nil (sep : Char) (l : List Char) :
    splitOnChar sep l ≠ [] := by
  cases l with
  | nil => simp [splitOnChar]
  | cons c cs =>
      simp only [splitOnChar]
      by_cases h : c = sep
      · simp [h]
      · simp only [h, if_false]
        cases splitOnChar sep cs with
        | nil => simp
        | cons seg rest => simp

theorem splitOnChar_append_sep (sep : Char) (seg rest : List Char)
    (h : sep ∉ seg) :
    splitOnChar sep (seg ++ sep :: rest) = seg :: splitOnChar sep rest := by
  induction seg with
  | nil => simp [splitOnChar]
  | cons c cs ih =>
      have hc : c ≠ sep := fun hcs => h (hcs ▸ List.mem_cons_self c cs)
      have hcs : sep ∉ cs := fun hm => h (List.mem_cons_of_mem c hm)
      simp only [List.cons_append, splitOnChar, hc, if_false, List.append_eq,
        ih hcs]

theorem splitOnChar_no_sep (sep : Char) (seg : List Char) (h : sep ∉ seg) :
    splitOnChar sep seg = [seg] := by
  induction seg with
  | nil => rfl
  | cons c cs ih =>
      have hc : c ≠ sep := fun hcs => h (hcs ▸ List.mem_cons_self c cs)
      have hcs : sep ∉ cs := fun hm => h (List.mem_cons_of_mem c hm)
      simp only [splitOnChar, hc, if_false, ih hcs]

theorem splitOnChar_joinNl (segs : List (List Char))
    (h : ∀ seg ∈ segs, Char.ofNat 10 ∉ seg) (hne : segs ≠ []) :
    splitOnChar (Char.ofNat 10) (joinNl segs) = segs := by
  induction segs with
  | nil => exact absurd rfl hne
  | cons seg rest ih =>
      cases rest with
      | nil =>
          simp only [joinNl]
          exact splitOnChar_no_sep _ seg (h seg (List.mem_cons_self seg []))
      | cons seg2 rest2 =>
          have hseg : Char.ofNat 10 ∉ seg :=
            h seg (List.mem_cons_self seg (seg2 :: rest2))
          have hrest : ∀ s ∈ seg2 :: rest2, Char.ofNat 10 ∉ s :=
            fun s hs => h s (List.mem_cons_of_mem seg hs)
          simp only [joinNl]
          rw [splitOnChar_append_sep _ seg (joinNl (seg2 :: rest2)) hseg,
            ih hrest (by simp)]

/-- Claim C6: submitting the project form and reloading the project view
renders one paragraph per newline-separated segment of the submitted
content, in order; in particular contenu "A\nB" renders the two paragraphs
"A" then "B". -/
theorem c6_project_roundtrip :
    (∀ (stored : ProjectData) (titre : String) (segs : List (List Char)),
      (∀ seg ∈ segs, Char.ofNat 10 ∉ seg) → segs ≠ [] →
      projectParagraphs
        (backendGetProject (backendPutProject stored
          { titre := titre, contenu := String.mk (joinNl segs) })) =
        segs.map String.mk) ∧
    projectParagraphs
      (backendGetProject (backendPutProject { titre := "", contenu := "" }
        { titre := "X", contenu := "A\nB" })) = ["A", "B"] := by
  constructor
  · intro stored titre segs h hne
    simp only [projectParagraphs, backendGetProject, backendPutProject]
    rw [show (String.mk (joinNl segs)).toList = joinNl segs from rfl,
      splitOnChar_joinNl segs h hne]
  · rfl

/-- Witness for C6 at the two newline-free segments A and B. -/
theorem c6_project_roundtrip_witness :
    projectParagraphs
      (backendGetProject (backendPutProject { titre := "", contenu := "" }
        { titre := "X",
          contenu := String.mk (joinNl [[Char.ofNat 65], [Char.ofNat 66]]) })) =
      [[Char.ofNat 65], [Char.ofNat 66]].map String.mk :=
  c6_project_roundtrip.1 { titre := "", contenu := "" } "X"
    [[Char.ofNat 65], [Char.ofNat 66]] (by decide) (by decide)

/-- The `MembersManagement` form panel cells (lines 518-522). -/
structure MembersFormPanel where
  showForm : Bool
  editingMember : Option Member
  nom : String
  prenom : String
  age : String
  branch : String
deriving Repr, DecidableEq

/-- The form-panel state after a successful member submit (lines 539-541):
fields reset to their defaults, form hidden, editing tag cleared. -/
def membersPanelReset : MembersFormPanel :=
  { showForm := false
    editingMember := none
    nom := ""
    prenom := ""
    age := ""
    branch := "meute" }

/-- The `ActivitiesManagement` form panel cells (lines 683-687). -/
structure ActivitiesFormPanel where
  showForm : Bool
  editingActivity : Option Activity
  titre : String
  description : String
  dateActivite : String
  branch : String
  organ : String
  lieu : String
deriving Repr, DecidableEq

/-- The form-panel state after a successful activity submit
(lines 709-711). -/
def activitiesPanelReset : ActivitiesFormPanel :=
  { showForm := false
    editingActivity := none
    titre := ""
    description := ""
    dateActivite := ""
    branch := ""
    organ := ""
    lieu := "" }

/-- The observable outcome of one submit handler run: the panel state
afterwards, whether `onUpdate` ran, whether the error was logged, and the
text of any `alert` shown. -/
structure MutationOutcome (σ : Type) where
  panel : σ
  updated : Bool
  logged : Bool
  alertMsg : Option String
deriving Repr, DecidableEq

/-- `MembersManagement.handleSubmit` (lines 524-546): create or update
depending on the editing tag; on success reset the panel and call
`onUpdate`; on failure only `console.error`, leaving every cell as it
was.  No alert on either branch. -/
def membersHandleSubmit (p : MembersFormPanel) (r : CallResult) :
    MutationOutcome MembersFormPanel :=
  match r with
  | .success =>
      { panel := membersPanelReset, updated := true, logged := false,
        alertMsg := none }
  | .failure =>
      { panel := p, updated := false, logged := true, alertMsg := none }

/-- `ActivitiesManagement.handleSubmit` (lines 689-716): same shape as the
member submit; no alert on either branch. -/
def activitiesHandleSubmit (p : ActivitiesFormPanel) (r : CallResult) :
    MutationOutcome ActivitiesFormPanel :=
  match r with
  | .success =>
      { panel := activitiesPanelReset, updated := true, logged := false,
        alertMsg := none }
  | .failure =>
      { panel := p, updated := false, logged := true, alertMsg := none }

/-- `ProjectManagement.handleSubmit` (lines 863-878): on success `onUpdate`
and a success alert; on failure a `console.error` and an error alert; the
form data is untouched on both branches and loading returns to false in
`finally`. -/
def projectHandleSubmit (form : ProjectData) (r : CallResult) :
    MutationOutcome ProjectData :=
  match r with
  | .success =>
      { panel := form, updated := true, logged := false,
        alertMsg := some "Projet pédagogique mis à jour avec succès !" }
  | .failure =>
      { panel := form, updated := false, logged := true,
        alertMsg := some "Erreur lors de la mise à jour" }

/-- Claim C4 counterexample: the project update is an entity-management
mutation whose failure shows a user-visible `alert`, so the claim that no
mutation path displays an error — login being the only such path — is
false at this input. -/
theorem c4_project_failure_alerts :
    (projectHandleSubmit { titre := "X", contenu := "Y" }
        CallResult.failure).alertMsg =
      some "Erreur lors de la mise à jour" := rfl

/-- Claim C4 (amended): member and activity mutation failures — create,
update and delete — are only logged, leave the form state unchanged for a
retry, and display nothing; the project update failure also leaves the
form unchanged but additionally displays an error alert, so login is not
the only path with user-visible error feedback. -/
theorem c4_mutation_failure_handling (mp : MembersFormPanel)
    (ap : ActivitiesFormPanel) (pf : ProjectData) :
    membersHandleSubmit mp CallResult.failure =
      { panel := mp, updated := false, logged := true, alertMsg := none } ∧
    activitiesHandleSubmit ap CallResult.failure =
      { panel := ap, updated := false, logged := true, alertMsg := none } ∧
    membersHandleDelete true CallResult.failure =
      { deleteIssued := true, refreshInvoked := false, logged := true } ∧
    activitiesHandleDelete true CallResult.failure =
      { deleteIssued := true, refreshInvoked := false, logged := true } ∧
    projectHandleSubmit pf CallResult.failure =
      { panel := pf, updated := false, logged := true,
        alertMsg := some "Erreur lors de la mise à jour" } := by
  refine ⟨rfl, rfl, rfl, rfl, rfl⟩

end Ouragan
